import Mathlib

/-!
# Verification of the Callva load-test coordinator (`locustfile_callva.py`)

This file shallowly embeds the phase-gated multi-tenant load-generation logic
of `src/locustfile_callva.py` and proves the testable properties stated in the
design specification.

Modelling conventions:
* Response bodies are modelled by a `Json` inductive mirroring the Python
  values produced by `response.json()`; `none` stands for a body on which
  `response.json()` raises (the `except` branch of the create task).
* Python truthiness of those values is modelled by `Json.truthy`.
* `random.choice` and `time.time()` are modelled by explicit parameters:
  an index for a choice from a list, an `Int` for the wall-clock time
  (only differences and comparisons of times matter to the code).
* The per-org counter dict `calls_created_per_org` is modelled as a total
  function `String → Nat`; in the source the dict carries exactly the three
  credential orgs, each initialised to `0`, and is only ever indexed at a
  user's `org_name`, which is drawn from those credentials.
* Threads are serialised: each task invocation is one atomic step on the
  shared state.  The lock (`org_lock`) makes the create task's gate check and
  increment atomic in the source; the interleaved (racy) behaviours the spec
  explicitly tolerates are outside this sequential model.
-/

namespace Callva

/-- Python values as returned by `response.json()`. -/
inductive Json where
  | null : Json
  | bool : Bool → Json
  | num : Int → Json
  | str : String → Json
  | arr : List Json → Json
  | obj : List (String × Json) → Json
deriving Repr

/-- Python truthiness (`if call_id:` / `or` chains). -/
def Json.truthy : Json → Bool
  | .null => false
  | .bool b => b
  | .num n => n != 0
  | .str s => s != ""
  | .arr l => !l.isEmpty
  | .obj kvs => !kvs.isEmpty

/-- Python `d.get(k)` on a dict: the value bound to `k`, or `None` when the
key is absent.  Only called on `Json.obj` values; the `AttributeError` raised
by `.get` on a non-dict is modelled at the call site (`lookupCallId`). -/
def Json.dictGet : Json → String → Json
  | .obj kvs, k =>
    match kvs.find? (fun p => p.1 == k) with
    | some p => p.2
    | none => .null
  | _, _ => .null

/-- Python `d.get(k, default)` on a dict: the value bound to `k`, or `default`
when the key is absent. -/
def Json.dictGetD : Json → String → Json → Json
  | .obj kvs, k, dflt =>
    match kvs.find? (fun p => p.1 == k) with
    | some p => p.2
    | none => dflt
  | _, _, dflt => dflt

/-- An HTTP response as the tasks observe it: the status code, and the result
of `response.json()` (`none` when parsing the body raises). -/
structure HttpResponse where
  status : Nat
  body : Option Json

/-- Outcome reported to Locust through the `catch_response` context:
`response.success()` or `response.failure(msg)`. -/
inductive Classification where
  | success : Classification
  | failure : String → Classification
deriving Repr

/-- Result of one task invocation: either the task returned before issuing any
HTTP request (`skipped`), or it issued a request and classified the response. -/
inductive TaskResult where
  | skipped : TaskResult
  | issued : Classification → TaskResult
deriving Repr

def TaskResult.isIssued : TaskResult → Bool
  | .skipped => false
  | .issued _ => true

-- ============================================================================
-- GLOBAL SHARED STATE
-- ============================================================================

/-- The credential orgs of `API_CREDENTIALS` (tokens only feed the
`Authorization` header and never influence control flow). -/
def API_CREDENTIAL_ORGS : List String := ["LoadTest1", "LoadTest2", "LoadTest3"]

/-- Sample data for generating realistic calls. -/
def NAMES : List String := [
  "Lisa Anderson", "John Smith", "Maria Garcia", "James Wilson",
  "Anna Rodriguez", "Robert Brown", "Emma Martinez", "Michael Davis",
  "Sophia Lopez", "David Johnson", "Olivia Williams", "Daniel Miller"]

def MAX_CALLS_PER_ORG : Nat := 350

/-- The process-wide mutable state shared by every simulated user:
`created_call_ids` and `calls_created_per_org`. -/
structure GlobalState where
  created_call_ids : List Json
  calls_created_per_org : String → Nat

/-- The module-level initial state: empty ID list, every org at `0`. -/
def initialState : GlobalState :=
  { created_call_ids := []
    calls_created_per_org := fun _ => 0 }

-- ============================================================================
-- PHASE 1: CREATE CALLS (CreateCallUser)
-- ============================================================================

/-- Per-user state of a `CreateCallUser`, as set up by `on_start`. -/
structure CreateUser where
  org_name : String
  my_call_ids : List Json

/-- The request payload built by `_generate_call_data`.  The payload never
influences the task's control flow; it is modelled for completeness. -/
structure CallData where
  name : String
  phone : String
  call_at : String
  times_called : Nat
  provider : String
  status : String

/-- `_generate_call_data`, with the two `random.randint` draws and
`random.choice(NAMES)` supplied as parameters (`d1 ∈ [0,9]`, `d2 ∈ [100,999]`)
and the formatted midnight timestamp of the current day as `call_at`. -/
def generate_call_data (nameIdx d1 d2 : Nat) (call_at : String) : CallData :=
  { name := NAMES.getD (nameIdx % NAMES.length) ""
    phone := "+1555" ++ toString (d1 % 10) ++ toString (100 + d2 % 900)
    call_at := call_at
    times_called := 0
    provider := "Vapi"
    status := "scheduled" }

/-- The identifier lookup
`data.get("id") or data.get("call_id") or data.get("data", {}).get("id")`.
Python's `or` is short-circuiting on truthiness, and `.get` on a non-dict
raises `AttributeError` (caught by the surrounding `except`, modelled as
`.error ()`).  `data.get("data", {})` substitutes `{}` only for an *absent*
key, so a present non-dict `"data"` value raises at the second `.get`. -/
def lookupCallId (data : Json) : Except Unit Json :=
  match data with
  | .obj _ =>
    let x1 := data.dictGet "id"
    if x1.truthy then .ok x1
    else
      let x2 := data.dictGet "call_id"
      if x2.truthy then .ok x2
      else
        let dd := data.dictGetD "data" (.obj [])
        match dd with
        | .obj _ => .ok (dd.dictGet "id")
        | _ => .error ()
  | _ => .error ()

/-- Result of one `create_call` invocation: the updated shared state, the
updated user, and the reported result. -/
structure CreateResult where
  state : GlobalState
  user : CreateUser
  result : TaskResult

/-- `CreateCallUser.create_call`.  Gate: if the user's org has reached
`MAX_CALLS_PER_ORG`, silently skip (no request).  Otherwise issue the POST;
on a 201/200 response parse the body, look the identifier up, and if one is
found increment the org's counter under the lock and append the identifier to
the shared and local ID lists (`response.success()`); otherwise, and on any
parse exception or non-2xx status, report `response.failure(...)`. -/
def create_call (g : GlobalState) (u : CreateUser) (resp : HttpResponse) :
    CreateResult :=
  if g.calls_created_per_org u.org_name ≥ MAX_CALLS_PER_ORG then
    -- Silently skip - ramp-up phase complete for this org
    ⟨g, u, .skipped⟩
  else
    if resp.status == 201 || resp.status == 200 then
      match resp.body with
      | none => ⟨g, u, .issued (.failure "Failed to parse response")⟩
      | some data =>
        match lookupCallId data with
        | .error _ => ⟨g, u, .issued (.failure "Failed to parse response")⟩
        | .ok call_id =>
          if call_id.truthy then
            ⟨{ created_call_ids := g.created_call_ids ++ [call_id]
               calls_created_per_org := fun o =>
                 if o = u.org_name then g.calls_created_per_org o + 1
                 else g.calls_created_per_org o },
             { u with my_call_ids := u.my_call_ids ++ [call_id] },
             .issued .success⟩
          else
            ⟨g, u, .issued (.failure "No ID in response")⟩
    else
      ⟨g, u, .issued (.failure "Got status")⟩

-- ============================================================================
-- PHASE 2: UPDATE CALLS (UpdateCallUser)
-- ============================================================================

/-- Per-user state of an `UpdateCallUser`: `on_start` sets only the token and
the org name — in particular this user class maintains NO local ID list. -/
structure UpdateUser where
  org_name : String

/-- The fixed pool a status transition is drawn from. -/
def UPDATE_STATUSES : List String := ["in_progress", "complete", "failed", "starting"]

/-- Result of one `update_call_status` invocation: either a pure skip (no
request, no classification), or a PUT issued for `call_id` carrying
`new_status`, classified by the response status. -/
inductive UpdateResult where
  | skipped : UpdateResult
  | issued : Json → String → Classification → UpdateResult
deriving Repr

def UpdateResult.isIssued : UpdateResult → Bool
  | .skipped => false
  | .issued _ _ _ => true

/-- `UpdateCallUser.update_call_status`.  Gate: skip until the org's counter
reaches `MAX_CALLS_PER_ORG` (read without the lock).  Skip when
`created_call_ids` is empty.  Otherwise pick `random.choice(created_call_ids)`
(modelled as the element at `pick % length`) and a random status transition
(`statusPick % 4`), issue the PUT, and classify 200/204 as success, 404 as
`"Call not found (404)"` failure, anything else as failure.  The shared state
is never modified. -/
def update_call_status (g : GlobalState) (u : UpdateUser)
    (pick statusPick : Nat) (resp : HttpResponse) :
    GlobalState × UpdateResult :=
  if g.calls_created_per_org u.org_name < MAX_CALLS_PER_ORG then
    (g, .skipped)  -- Skip - Phase 1 not complete yet
  else if g.created_call_ids.isEmpty then
    (g, .skipped)  -- Skip - no calls to update
  else
    let call_id := g.created_call_ids.getD (pick % g.created_call_ids.length) .null
    let new_status := UPDATE_STATUSES.getD (statusPick % UPDATE_STATUSES.length) ""
    if resp.status == 200 || resp.status == 204 then
      (g, .issued call_id new_status .success)
    else if resp.status == 404 then
      (g, .issued call_id new_status (.failure "Call not found (404)"))
    else
      (g, .issued call_id new_status (.failure "Got status"))

-- ============================================================================
-- PHASE 2: READ SCHEDULED CALLS (ReadScheduledUser, throttled)
-- ============================================================================

/-- Per-user state of a `ReadScheduledUser`: `on_start` sets the org name and
`last_execution = 0` (the per-user throttle timer). -/
structure ReadScheduledUser where
  org_name : String
  last_execution : Int

/-- `ReadScheduledUser.read_calls_scheduled`.  Gate: skip until the org's
counter reaches `MAX_CALLS_PER_ORG`.  Throttle: skip when fewer than 30
seconds have elapsed since `last_execution`; otherwise set `last_execution`
to the current time, issue the GET, and classify 200 as success, anything
else as failure.  `current_time` models `time.time()`. -/
def read_calls_scheduled (g : GlobalState) (u : ReadScheduledUser)
    (current_time : Int) (resp : HttpResponse) :
    ReadScheduledUser × TaskResult :=
  if g.calls_created_per_org u.org_name < MAX_CALLS_PER_ORG then
    (u, .skipped)  -- Skip - Phase 1 not complete yet
  else if current_time - u.last_execution < 30 then
    (u, .skipped)  -- Skip - too soon since last execution
  else
    let u' : ReadScheduledUser := { u with last_execution := current_time }
    if resp.status == 200 then
      (u', .issued .success)
    else
      (u', .issued (.failure "Got status"))

/-- A sequence of `read_calls_scheduled` invocations by one user against a
fixed global state, each with its invocation time and response; returns the
final user state and whether any invocation issued a request. -/
def runSched (g : GlobalState) :
    ReadScheduledUser → List (Int × HttpResponse) → ReadScheduledUser × Bool
  | u, [] => (u, false)
  | u, (t, resp) :: rest =>
    let step := read_calls_scheduled g u t resp
    let r := runSched g step.1 rest
    (r.1, step.2.isIssued || r.2)

-- ============================================================================
-- PHASE 2: READ HEAVY LOAD (ReadHeavyUser)
-- ============================================================================

/-- Per-user state of a `ReadHeavyUser`: just the org name. -/
structure ReadHeavyUser where
  org_name : String

/-- `ReadHeavyUser.read_calls_heavy_load`.  Gate: skip until the org's counter
reaches `MAX_CALLS_PER_ORG`; otherwise issue the GET and classify 200 as
success, anything else as failure.  No state is modified. -/
def read_calls_heavy_load (g : GlobalState) (u : ReadHeavyUser)
    (resp : HttpResponse) : TaskResult :=
  if g.calls_created_per_org u.org_name < MAX_CALLS_PER_ORG then
    .skipped  -- Skip - Phase 1 not complete yet
  else if resp.status == 200 then
    .issued .success
  else
    .issued (.failure "Got status")

-- ============================================================================
-- SYSTEM STEPS AND TRACES
-- ============================================================================

/-- One task invocation by some simulated user, together with the
environment-supplied inputs (the user's own state, random draws, the clock,
and the HTTP response).  Quantifying over arbitrary user states at each event
over-approximates the set of interleaved executions, which is sound for the
invariants proved about the shared state. -/
inductive Event where
  | create : CreateUser → HttpResponse → Event
  | update : UpdateUser → Nat → Nat → HttpResponse → Event
  | readScheduled : ReadScheduledUser → Int → HttpResponse → Event
  | readHeavy : ReadHeavyUser → HttpResponse → Event

/-- Effect of one event on the shared state.  The two read tasks only ever
read the shared state, so their effect on it is the identity. -/
def applyEvent (g : GlobalState) : Event → GlobalState
  | .create u resp => (create_call g u resp).state
  | .update u pick statusPick resp => (update_call_status g u pick statusPick resp).1
  | .readScheduled _ _ _ => g
  | .readHeavy _ _ => g

/-- Folding a list of events over the shared state. -/
def runEvents (g : GlobalState) : List Event → GlobalState
  | [] => g
  | e :: es => runEvents (applyEvent g e) es

-- ============================================================================
-- HELPER LEMMAS
-- ============================================================================

/-- A concrete at-quota state: `LoadTest1` has created `MAX_CALLS_PER_ORG`
calls and one identifier is in the shared list. -/
def gQuota : GlobalState :=
  { created_call_ids := [.str "call-1"]
    calls_created_per_org := fun o => if o = "LoadTest1" then 350 else 0 }

lemma getD_mod_mem (l : List Json) (h : l ≠ []) (k : Nat) :
    l.getD (k % l.length) .null ∈ l := by
  have hl : 0 < l.length := List.length_pos.mpr h
  have hk : k % l.length < l.length := Nat.mod_lt _ hl
  rw [List.getD_eq_getElem?_getD, List.getElem?_eq_getElem hk]
  exact List.getElem_mem hk

/-- `update_call_status` returns the shared state unchanged in every branch. -/
lemma update_call_status_state (g : GlobalState) (u : UpdateUser)
    (pick statusPick : Nat) (resp : HttpResponse) :
    (update_call_status g u pick statusPick resp).1 = g := by
  unfold update_call_status
  split
  · rfl
  split
  · rfl
  split
  · rfl
  split
  · rfl
  · rfl

/-- `update_call_status` never reports success with a status other than
`.issued`: exhaustive description of the branch taken past both skips. -/
lemma update_call_status_issued (g : GlobalState) (u : UpdateUser)
    (pick statusPick : Nat) (resp : HttpResponse)
    (hgate : MAX_CALLS_PER_ORG ≤ g.calls_created_per_org u.org_name)
    (hne : g.created_call_ids ≠ []) :
    ∃ cls, (update_call_status g u pick statusPick resp).2 =
      .issued (g.created_call_ids.getD (pick % g.created_call_ids.length) .null)
        (UPDATE_STATUSES.getD (statusPick % UPDATE_STATUSES.length) "") cls := by
  unfold update_call_status
  rw [if_neg (by omega), if_neg (by simpa [List.isEmpty_iff] using hne)]
  by_cases h1 : (resp.status == 200 || resp.status == 204) = true
  · rw [if_pos h1]
    exact ⟨.success, rfl⟩
  · rw [if_neg h1]
    by_cases h2 : (resp.status == 404) = true
    · rw [if_pos h2]
      exact ⟨.failure "Call not found (404)", rfl⟩
    · rw [if_neg h2]
      exact ⟨.failure "Got status", rfl⟩

/-- Exhaustive description of one `create_call` invocation: either the
response had status 201/200, parsed, and yielded a truthy identifier — then
the counter is bumped, the identifier appended to both lists and success
reported — or nothing changes and success is not reported. -/
lemma create_call_spec (g : GlobalState) (u : CreateUser) (resp : HttpResponse) :
    (∃ cid d, (resp.status = 201 ∨ resp.status = 200) ∧
      g.calls_created_per_org u.org_name < MAX_CALLS_PER_ORG ∧
      resp.body = some d ∧ lookupCallId d = .ok cid ∧ cid.truthy = true ∧
      create_call g u resp =
        ⟨{ created_call_ids := g.created_call_ids ++ [cid]
           calls_created_per_org := fun o =>
             if o = u.org_name then g.calls_created_per_org o + 1
             else g.calls_created_per_org o },
         { u with my_call_ids := u.my_call_ids ++ [cid] },
         .issued .success⟩) ∨
    ((create_call g u resp).state = g ∧ (create_call g u resp).user = u ∧
      (create_call g u resp).result ≠ .issued .success) := by
  by_cases h1 : g.calls_created_per_org u.org_name ≥ MAX_CALLS_PER_ORG
  · right
    simp [create_call, h1]
  · by_cases h2 : (resp.status == 201 || resp.status == 200) = true
    · cases hb : resp.body with
      | none => right; simp [create_call, h1, h2, hb]
      | some d =>
        cases hl : lookupCallId d with
        | error e => right; simp [create_call, h1, h2, hb, hl]
        | ok cid =>
          by_cases ht : cid.truthy = true
          · left
            refine ⟨cid, d, ?_, by omega, rfl, hl, ht, ?_⟩
            · simpa using h2
            · simp [create_call, h1, h2, hb, hl, ht]
          · right
            simp [create_call, h1, h2, hb, hl, ht]
    · right
      simp [create_call, h1, h2]

/-- When the org is at quota, `create_call` is a silent no-op. -/
lemma create_call_at_quota (g : GlobalState) (u : CreateUser)
    (resp : HttpResponse)
    (h : MAX_CALLS_PER_ORG ≤ g.calls_created_per_org u.org_name) :
    create_call g u resp = ⟨g, u, .skipped⟩ := by
  unfold create_call
  rw [if_pos h]

-- ============================================================================
-- CLAIMS
-- ============================================================================

/-- C1: For every invocation of an update or read task
(`UpdateCallUser.update_call_status`, `ReadScheduledUser.read_calls_scheduled`,
`ReadHeavyUser.read_calls_heavy_load`), if the shared creation counter for the
user's tenant is below `MAX_CALLS_PER_ORG` at the gate check, the task returns
without issuing any HTTP request; a read/update request is issued only when
the observed counter is at or above quota. -/
theorem C1_phase_gate :
    (∀ g u pick sp resp,
      g.calls_created_per_org (UpdateUser.org_name u) < MAX_CALLS_PER_ORG →
      update_call_status g u pick sp resp = (g, .skipped)) ∧
    (∀ g u t resp,
      g.calls_created_per_org (ReadScheduledUser.org_name u) < MAX_CALLS_PER_ORG →
      read_calls_scheduled g u t resp = (u, .skipped)) ∧
    (∀ g u resp,
      g.calls_created_per_org (ReadHeavyUser.org_name u) < MAX_CALLS_PER_ORG →
      read_calls_heavy_load g u resp = .skipped) ∧
    (∀ g u pick sp resp,
      (update_call_status g u pick sp resp).2.isIssued = true →
      MAX_CALLS_PER_ORG ≤ g.calls_created_per_org (UpdateUser.org_name u)) ∧
    (∀ g u t resp,
      (read_calls_scheduled g u t resp).2.isIssued = true →
      MAX_CALLS_PER_ORG ≤ g.calls_created_per_org (ReadScheduledUser.org_name u)) ∧
    (∀ g u resp,
      (read_calls_heavy_load g u resp).isIssued = true →
      MAX_CALLS_PER_ORG ≤ g.calls_created_per_org (ReadHeavyUser.org_name u)) := by
  refine ⟨?_, ?_, ?_, ?_, ?_, ?_⟩
  · intro g u pick sp resp h
    simp [update_call_status, h]
  · intro g u t resp h
    simp [read_calls_scheduled, h]
  · intro g u resp h
    simp [read_calls_heavy_load, h]
  · intro g u pick sp resp h
    by_cases hc : g.calls_created_per_org u.org_name < MAX_CALLS_PER_ORG
    · simp [update_call_status, hc, UpdateResult.isIssued] at h
    · omega
  · intro g u t resp h
    by_cases hc : g.calls_created_per_org u.org_name < MAX_CALLS_PER_ORG
    · simp [read_calls_scheduled, hc, TaskResult.isIssued] at h
    · omega
  · intro g u resp h
    by_cases hc : g.calls_created_per_org u.org_name < MAX_CALLS_PER_ORG
    · simp [read_calls_heavy_load, hc, TaskResult.isIssued] at h
    · omega

/-- Witness for C1 at concrete inputs: below quota (`initialState`, counter
0 < 350) each of the three tasks skips; `gQuota` is at quota, where the
update task issues. -/
theorem C1_phase_gate_witness :
    update_call_status initialState ⟨"LoadTest1"⟩ 0 0 ⟨200, some .null⟩ =
      (initialState, .skipped) ∧
    read_calls_scheduled initialState ⟨"LoadTest1", 0⟩ 100 ⟨200, some .null⟩ =
      (⟨"LoadTest1", 0⟩, .skipped) ∧
    read_calls_heavy_load initialState ⟨"LoadTest1"⟩ ⟨200, some .null⟩ = .skipped ∧
    MAX_CALLS_PER_ORG ≤ gQuota.calls_created_per_org "LoadTest1" :=
  ⟨C1_phase_gate.1 initialState ⟨"LoadTest1"⟩ 0 0 ⟨200, some .null⟩ (by decide),
   C1_phase_gate.2.1 initialState ⟨"LoadTest1", 0⟩ 100 ⟨200, some .null⟩ (by decide),
   C1_phase_gate.2.2.1 initialState ⟨"LoadTest1"⟩ ⟨200, some .null⟩ (by decide),
   C1_phase_gate.2.2.2.1 gQuota ⟨"LoadTest1"⟩ 0 0 ⟨404, none⟩ (by decide)⟩

/-- C2 (counterexample): at a concrete 404 the claim "the chosen identifier
is removed from the user's local ID list" fails.  In the source an
`UpdateCallUser` maintains no local ID list at all (`on_start` sets only the
token and org name), the 404 branch only logs and calls `response.failure`,
and the complete post-state of the invocation — shared state included — is
unchanged: the chosen identifier is removed from nothing. -/
theorem C2_counterexample :
    update_call_status gQuota ⟨"LoadTest1"⟩ 0 0 ⟨404, none⟩ =
      (gQuota, .issued (.str "call-1") "in_progress"
        (.failure "Call not found (404)")) ∧
    gQuota.created_call_ids = [.str "call-1"] :=
  ⟨rfl, rfl⟩

/-- C2 (amended): when the update task receives a 404 response to its PUT
request past the gate and the non-empty-list check, the task is classified as
failed ("Call not found (404)"); no identifier is removed from any list — the
update user maintains no local ID list and the shared state is returned
unchanged. -/
theorem C2_amended_update_404 (g : GlobalState) (u : UpdateUser)
    (pick sp : Nat) (resp : HttpResponse)
    (hgate : MAX_CALLS_PER_ORG ≤ g.calls_created_per_org (UpdateUser.org_name u))
    (hne : g.created_call_ids ≠ [])
    (h404 : resp.status = 404) :
    update_call_status g u pick sp resp =
      (g, .issued (g.created_call_ids.getD (pick % g.created_call_ids.length) .null)
        (UPDATE_STATUSES.getD (sp % UPDATE_STATUSES.length) "")
        (.failure "Call not found (404)")) := by
  unfold update_call_status
  rw [if_neg (by omega), if_neg (by simpa [List.isEmpty_iff] using hne),
    if_neg (by simp [h404]), if_pos (by simp [h404])]

/-- Witness for the amended C2 at a concrete input. -/
theorem C2_amended_update_404_witness :
    update_call_status gQuota ⟨"LoadTest1"⟩ 0 0 ⟨404, none⟩ =
      (gQuota, .issued (.str "call-1") "in_progress"
        (.failure "Call not found (404)")) :=
  C2_amended_update_404 gQuota ⟨"LoadTest1"⟩ 0 0 ⟨404, none⟩
    (by decide) (List.cons_ne_nil _ _) rfl

/-- C8: for every update-task invocation past the phase gate, if the shared
ID list is empty the task performs no HTTP call and is classified neither as
success nor as failure (pure skip); otherwise it picks a random identifier
from the shared ID list (the result of `random.choice(created_call_ids)`,
which is a member of the shared list — given a non-empty shared list no other
source is consulted). -/
theorem C8_update_empty_skip (g : GlobalState) (u : UpdateUser)
    (pick sp : Nat) (resp : HttpResponse)
    (hgate : MAX_CALLS_PER_ORG ≤ g.calls_created_per_org (UpdateUser.org_name u)) :
    (g.created_call_ids = [] →
      update_call_status g u pick sp resp = (g, .skipped)) ∧
    (g.created_call_ids ≠ [] →
      (update_call_status g u pick sp resp).1 = g ∧
      ∃ cls, (update_call_status g u pick sp resp).2 =
        .issued (g.created_call_ids.getD (pick % g.created_call_ids.length) .null)
          (UPDATE_STATUSES.getD (sp % UPDATE_STATUSES.length) "") cls ∧
      g.created_call_ids.getD (pick % g.created_call_ids.length) .null ∈
        g.created_call_ids) := by
  constructor
  · intro he
    unfold update_call_status
    rw [if_neg (by omega), if_pos (by simp [he])]
  · intro hne
    refine ⟨update_call_status_state g u pick sp resp, ?_⟩
    obtain ⟨cls, hcls⟩ := update_call_status_issued g u pick sp resp hgate hne
    exact ⟨cls, hcls, getD_mod_mem _ hne pick⟩

/-- Witness for C8 at concrete inputs: the at-quota state with an empty
shared list skips; `gQuota` (non-empty list) issues for the list's element. -/
theorem C8_update_empty_skip_witness :
    update_call_status
      { created_call_ids := [], calls_created_per_org := gQuota.calls_created_per_org }
      ⟨"LoadTest1"⟩ 0 0 ⟨200, some .null⟩ =
      ({ created_call_ids := [], calls_created_per_org := gQuota.calls_created_per_org },
        .skipped) ∧
    (update_call_status gQuota ⟨"LoadTest1"⟩ 0 0 ⟨200, some .null⟩).1 = gQuota ∧
    ∃ cls, (update_call_status gQuota ⟨"LoadTest1"⟩ 0 0 ⟨200, some .null⟩).2 =
      .issued (gQuota.created_call_ids.getD (0 % gQuota.created_call_ids.length) .null)
        (UPDATE_STATUSES.getD (0 % UPDATE_STATUSES.length) "") cls ∧
    gQuota.created_call_ids.getD (0 % gQuota.created_call_ids.length) .null ∈
      gQuota.created_call_ids :=
  ⟨(C8_update_empty_skip
      { created_call_ids := [], calls_created_per_org := gQuota.calls_created_per_org }
      ⟨"LoadTest1"⟩ 0 0 ⟨200, some .null⟩ (by decide)).1 rfl,
   (C8_update_empty_skip gQuota ⟨"LoadTest1"⟩ 0 0 ⟨200, some .null⟩
      (by decide)).2 (List.cons_ne_nil _ _)⟩

/-- C3: for every user of the throttled read task
(`ReadScheduledUser.read_calls_scheduled`): the user records the wall-clock
time of its last task execution that actually proceeded, updates that
timestamp only when it actually proceeds to issue a request (a skip leaves
the user unchanged), and having issued at time `T`, does not issue another
request before `T + 30` seconds (so in particular not after issuing at `T`
and observing success). -/
theorem C3_throttle :
    (∀ g u t resp, (read_calls_scheduled g u t resp).2 = .skipped →
      (read_calls_scheduled g u t resp).1 = u) ∧
    (∀ g u t resp, (read_calls_scheduled g u t resp).2.isIssued = true →
      (read_calls_scheduled g u t resp).1.last_execution = t ∧
      u.last_execution + 30 ≤ t) ∧
    (∀ g u invs, (∀ p ∈ invs, (Prod.fst p : Int) < u.last_execution + 30) →
      runSched g u invs = (u, false)) := by
  have hskip : ∀ g (u : ReadScheduledUser) t resp,
      t < u.last_execution + 30 →
      read_calls_scheduled g u t resp = (u, .skipped) := by
    intro g u t resp ht
    unfold read_calls_scheduled
    by_cases hc : g.calls_created_per_org u.org_name < MAX_CALLS_PER_ORG
    · rw [if_pos hc]
    · rw [if_neg hc, if_pos (by omega)]
  refine ⟨?_, ?_, ?_⟩
  · intro g u t resp h
    unfold read_calls_scheduled at h ⊢
    by_cases hc : g.calls_created_per_org u.org_name < MAX_CALLS_PER_ORG
    · rw [if_pos hc]
    · rw [if_neg hc] at h ⊢
      by_cases hth : t - u.last_execution < 30
      · rw [if_pos hth]
      · rw [if_neg hth] at h
        by_cases hs : (resp.status == 200) = true
        · rw [if_pos hs] at h
          simp at h
        · rw [if_neg hs] at h
          simp at h
  · intro g u t resp h
    unfold read_calls_scheduled at h ⊢
    by_cases hc : g.calls_created_per_org u.org_name < MAX_CALLS_PER_ORG
    · rw [if_pos hc] at h
      simp [TaskResult.isIssued] at h
    · rw [if_neg hc] at h ⊢
      by_cases hth : t - u.last_execution < 30
      · rw [if_pos hth] at h
        simp [TaskResult.isIssued] at h
      · rw [if_neg hth] at h ⊢
        constructor
        · by_cases hs : (resp.status == 200) = true
          · rw [if_pos hs]
          · rw [if_neg hs]
        · omega
  · intro g u invs hall
    induction invs with
    | nil => rfl
    | cons p rest ih =>
      have hp : read_calls_scheduled g u p.1 p.2 = (u, .skipped) :=
        hskip g u p.1 p.2 (hall p (List.mem_cons_self p rest))
      have hrest := ih (fun q hq => hall q (List.mem_cons_of_mem p hq))
      cases p with
      | mk t resp =>
        simp only [runSched, hp, hrest]
        rfl

/-- Witness for C3 at concrete inputs against `gQuota` (gate open): a skip at
time 10 (below `0 + 30`) leaves the user unchanged; an issue at time 50 sets
the timestamp to 50 with `0 + 30 ≤ 50`; a whole invocation list below the
cutoff issues nothing. -/
theorem C3_throttle_witness :
    (read_calls_scheduled gQuota ⟨"LoadTest1", 0⟩ 10 ⟨200, some .null⟩).1 =
      ⟨"LoadTest1", 0⟩ ∧
    ((read_calls_scheduled gQuota ⟨"LoadTest1", 0⟩ 50 ⟨200, some .null⟩).1.last_execution = 50 ∧
      (0 : Int) + 30 ≤ 50) ∧
    runSched gQuota ⟨"LoadTest1", 0⟩ [(10, ⟨200, some .null⟩), (29, ⟨500, none⟩)] =
      (⟨"LoadTest1", 0⟩, false) :=
  ⟨C3_throttle.1 gQuota ⟨"LoadTest1", 0⟩ 10 ⟨200, some .null⟩ rfl,
   C3_throttle.2.1 gQuota ⟨"LoadTest1", 0⟩ 50 ⟨200, some .null⟩ rfl,
   C3_throttle.2.2 gQuota ⟨"LoadTest1", 0⟩ [(10, ⟨200, some .null⟩), (29, ⟨500, none⟩)]
     (by
      intro p hp
      simp only [List.mem_cons, List.not_mem_nil, or_false] at hp
      rcases hp with h | h <;> rw [h] <;> decide)⟩

/-- The failure condition of the claim about create-task classification: the
status is not 200/201, or parsing the body raises (`none`, and also the
`AttributeError` the lookup chain raises on a non-dict, caught by the same
`except`), or the lookup chain yields no (truthy) identifier. -/
def createFailureCond (resp : HttpResponse) : Prop :=
  ¬(resp.status = 200 ∨ resp.status = 201) ∨
  resp.body = none ∨
  ∃ d, resp.body = some d ∧
    (lookupCallId d = .error () ∨
     ∃ cid, lookupCallId d = .ok cid ∧ cid.truthy = false)

/-- C4: for every create-task invocation (past the gate), a request is issued
and classified — no exception propagates out of the task, which is total on
every response — and the response is classified as failure exactly when the
HTTP status is not 200/201, or the status is 200/201 but none of the
identifier lookup paths (`id`, `call_id`, `data.id`, tried in that order by
`lookupCallId`) yields an identifier, or parsing the response body raises;
otherwise it is classified as success. -/
theorem C4_create_classification (g : GlobalState) (u : CreateUser)
    (resp : HttpResponse)
    (hgate : g.calls_created_per_org (CreateUser.org_name u) < MAX_CALLS_PER_ORG) :
    (create_call g u resp).result.isIssued = true ∧
    ((∃ m, (create_call g u resp).result = .issued (.failure m)) ↔
      createFailureCond resp) ∧
    ((create_call g u resp).result = .issued .success ↔
      ¬createFailureCond resp) := by
  have hgate' : ¬g.calls_created_per_org u.org_name ≥ MAX_CALLS_PER_ORG := by omega
  by_cases h2 : (resp.status == 201 || resp.status == 200) = true
  · cases hb : resp.body with
    | none =>
      have hcond : createFailureCond resp := Or.inr (Or.inl hb)
      refine ⟨by simp [create_call, hgate', h2, hb, TaskResult.isIssued], ?_, ?_⟩
      · simp only [create_call, if_neg hgate', if_pos h2, hb]
        exact iff_of_true ⟨"Failed to parse response", rfl⟩ hcond
      · simp only [create_call, if_neg hgate', if_pos h2, hb]
        exact iff_of_false (by simp) (by simp [hcond])
    | some d =>
      cases hl : lookupCallId d with
      | error e =>
        have hcond : createFailureCond resp :=
          Or.inr (Or.inr ⟨d, hb, Or.inl (by rw [hl])⟩)
        refine ⟨by simp [create_call, hgate', h2, hb, hl, TaskResult.isIssued], ?_, ?_⟩
        · simp only [create_call, if_neg hgate', if_pos h2, hb, hl]
          exact iff_of_true ⟨"Failed to parse response", rfl⟩ hcond
        · simp only [create_call, if_neg hgate', if_pos h2, hb, hl]
          exact iff_of_false (by simp) (by simp [hcond])
      | ok cid =>
        by_cases ht : cid.truthy = true
        · have hcond : ¬createFailureCond resp := by
            intro hc
            rcases hc with hc | hc | ⟨d', hd', hc⟩
            · simp only [beq_iff_eq, Bool.or_eq_true] at h2
              rcases h2 with h | h
              · exact hc (Or.inr h)
              · exact hc (Or.inl h)
            · rw [hb] at hc; cases hc
            · rw [hb] at hd'
              cases hd'
              rcases hc with hc | ⟨cid', hc, hcf⟩
              · rw [hl] at hc; cases hc
              · rw [hl] at hc
                cases hc
                rw [ht] at hcf
                cases hcf
          refine ⟨by simp [create_call, hgate', h2, hb, hl, ht, TaskResult.isIssued], ?_, ?_⟩
          · simp only [create_call, if_neg hgate', if_pos h2, hb, hl, if_pos ht]
            exact iff_of_false (by simp) hcond
          · simp only [create_call, if_neg hgate', if_pos h2, hb, hl, if_pos ht]
            constructor
            · intro _; exact hcond
            · intro _; trivial
        · have hcond : createFailureCond resp :=
            Or.inr (Or.inr ⟨d, hb, Or.inr ⟨cid, by rw [hl], by simpa using ht⟩⟩)
          refine ⟨by simp [create_call, hgate', h2, hb, hl, ht, TaskResult.isIssued], ?_, ?_⟩
          · simp only [create_call, if_neg hgate', if_pos h2, hb, hl, if_neg ht]
            exact iff_of_true ⟨"No ID in response", rfl⟩ hcond
          · simp only [create_call, if_neg hgate', if_pos h2, hb, hl, if_neg ht]
            exact iff_of_false (by simp) (by simp [hcond])
  · have hcond : createFailureCond resp := by
      left
      intro hc
      rcases hc with hc | hc <;> simp [hc] at h2
    refine ⟨by simp [create_call, hgate', h2, TaskResult.isIssued], ?_, ?_⟩
    · simp only [create_call, if_neg hgate', if_neg h2]
      exact iff_of_true ⟨"Got status", rfl⟩ hcond
    · simp only [create_call, if_neg hgate', if_neg h2]
      exact iff_of_false (by simp) (by simp [hcond])

/-- Witness for C4 at concrete inputs: a 500 response is classified failure;
a 201 response carrying `{"id": "abc"}` is classified success. -/
theorem C4_create_classification_witness :
    (∃ m, (create_call initialState ⟨"LoadTest1", []⟩ ⟨500, none⟩).result =
      .issued (.failure m)) ∧
    (create_call initialState ⟨"LoadTest1", []⟩
      ⟨201, some (.obj [("id", .str "abc")])⟩).result = .issued .success :=
  ⟨(C4_create_classification initialState ⟨"LoadTest1", []⟩ ⟨500, none⟩
      (by decide)).2.1.mpr (Or.inr (Or.inl rfl)),
   (C4_create_classification initialState ⟨"LoadTest1", []⟩
      ⟨201, some (.obj [("id", .str "abc")])⟩ (by decide)).2.2.mpr
      (by
        intro hc
        rcases hc with hc | hc | ⟨d, hd, hc⟩
        · exact hc (Or.inr rfl)
        · cases hc
        · cases hd
          rcases hc with hc | ⟨cid, hc, hcf⟩
          · cases hc
          · cases hc
            cases hcf)⟩

/-- C9: for every create-task invocation past the gate whose response has
status 200 or 201 and parses as JSON, if the identifier lookup chain yields a
falsy value (for example `0`, `""`, or `null`), the response is classified as
a failure ("No ID in response") and neither the shared ID list, the user's
local list, nor the tenant's counter is mutated. -/
theorem C9_falsy_id (g : GlobalState) (u : CreateUser) (resp : HttpResponse)
    (d cid : Json)
    (hgate : g.calls_created_per_org (CreateUser.org_name u) < MAX_CALLS_PER_ORG)
    (hst : resp.status = 200 ∨ resp.status = 201)
    (hb : resp.body = some d)
    (hl : lookupCallId d = .ok cid)
    (ht : cid.truthy = false) :
    create_call g u resp = ⟨g, u, .issued (.failure "No ID in response")⟩ := by
  have h2 : (resp.status == 201 || resp.status == 200) = true := by
    rcases hst with h | h <;> simp [h]
  simp [create_call, h2, hb, hl, ht]
  omega

/-- Witness for C9: a 200 response with body `{"id": 0}` — all three lookup
paths are falsy (`0`, absent, absent) — is a no-mutation failure. -/
theorem C9_falsy_id_witness :
    create_call initialState ⟨"LoadTest1", []⟩ ⟨200, some (.obj [("id", .num 0)])⟩ =
      ⟨initialState, ⟨"LoadTest1", []⟩, .issued (.failure "No ID in response")⟩ :=
  C9_falsy_id initialState ⟨"LoadTest1", []⟩ ⟨200, some (.obj [("id", .num 0)])⟩
    (.obj [("id", .num 0)]) .null (by decide) (Or.inl rfl) rfl rfl rfl

/-- Effect of one event on a tenant's counter: unchanged, or bumped by one
by a create invocation for that tenant that reported success. -/
lemma applyEvent_counter (g : GlobalState) (e : Event) (org : String) :
    (applyEvent g e).calls_created_per_org org = g.calls_created_per_org org ∨
    (∃ u resp, e = .create u resp ∧ CreateUser.org_name u = org ∧
      (create_call g u resp).result = .issued .success ∧
      (applyEvent g e).calls_created_per_org org =
        g.calls_created_per_org org + 1) := by
  cases e with
  | create u resp =>
    rcases create_call_spec g u resp with
      ⟨cid, d, hst, hg, hb, hl, ht, heq⟩ | ⟨hs, hu, hr⟩
    · by_cases ho : org = u.org_name
      · right
        refine ⟨u, resp, rfl, ho.symm, by rw [heq], ?_⟩
        show (create_call g u resp).state.calls_created_per_org org = _
        rw [heq]
        simp [ho]
      · left
        show (create_call g u resp).state.calls_created_per_org org = _
        rw [heq]
        simp [ho]
    · left
      show (create_call g u resp).state.calls_created_per_org org = _
      rw [hs]
  | update u pick sp resp =>
    left
    show (update_call_status g u pick sp resp).1.calls_created_per_org org = _
    rw [update_call_status_state]
  | readScheduled u t resp => left; rfl
  | readHeavy u resp => left; rfl

/-- C5: for every tenant, the shared creation counter is non-decreasing over
every trace of task invocations, and it is mutated only by the create task's
locked increment (a single `+1` on a successfully classified creation); no
operation ever decreases it. -/
theorem C5_counter_monotone :
    (∀ g es org, g.calls_created_per_org org ≤
      (runEvents g es).calls_created_per_org org) ∧
    (∀ g e org,
      (applyEvent g e).calls_created_per_org org = g.calls_created_per_org org ∨
      (∃ u resp, e = .create u resp ∧ CreateUser.org_name u = org ∧
        (create_call g u resp).result = .issued .success ∧
        (applyEvent g e).calls_created_per_org org =
          g.calls_created_per_org org + 1)) := by
  constructor
  · intro g es
    induction es generalizing g with
    | nil => intro org; exact le_refl _
    | cons e rest ih =>
      intro org
      have hstep : g.calls_created_per_org org ≤
          (applyEvent g e).calls_created_per_org org := by
        rcases applyEvent_counter g e org with h | ⟨_, _, _, _, _, h⟩ <;> omega
      exact le_trans hstep (ih (applyEvent g e) org)
  · exact applyEvent_counter

/-- Effect of one event on the shared ID list: unchanged, or one identifier
appended by a create invocation whose 201/200 response yielded a truthy
identifier and was classified a success. -/
lemma applyEvent_ids (g : GlobalState) (e : Event) :
    (applyEvent g e).created_call_ids = g.created_call_ids ∨
    ∃ u resp cid d, e = .create u resp ∧
      (resp.status = 201 ∨ resp.status = 200) ∧
      resp.body = some d ∧ lookupCallId d = .ok cid ∧ cid.truthy = true ∧
      (create_call g u resp).result = .issued .success ∧
      (applyEvent g e).created_call_ids = g.created_call_ids ++ [cid] := by
  cases e with
  | create u resp =>
    rcases create_call_spec g u resp with
      ⟨cid, d, hst, hg, hb, hl, ht, heq⟩ | ⟨hs, hu, hr⟩
    · right
      refine ⟨u, resp, cid, d, rfl, hst, hb, hl, ht, by rw [heq], ?_⟩
      show (create_call g u resp).state.created_call_ids = _
      rw [heq]
    · left
      show (create_call g u resp).state.created_call_ids = _
      rw [hs]
  | update u pick sp resp =>
    left
    show (update_call_status g u pick sp resp).1.created_call_ids = _
    rw [update_call_status_state]
  | readScheduled u t resp => left; rfl
  | readHeavy u resp => left; rfl

/-- Provenance of a shared-list element over an arbitrary trace: it was
already present initially, or some create event in the trace appended it
after a successfully classified 201/200 response yielding it. -/
lemma runEvents_ids_origin (es : List Event) (g : GlobalState) (cid : Json)
    (h : cid ∈ (runEvents g es).created_call_ids) :
    cid ∈ g.created_call_ids ∨
    ∃ es₁ u resp es₂, es = es₁ ++ Event.create u resp :: es₂ ∧
      (create_call (runEvents g es₁) u resp).result = .issued .success ∧
      (resp.status = 201 ∨ resp.status = 200) ∧
      ∃ d, resp.body = some d ∧ lookupCallId d = .ok cid ∧ cid.truthy = true := by
  induction es generalizing g with
  | nil => left; exact h
  | cons e rest ih =>
    have h' : cid ∈ (runEvents (applyEvent g e) rest).created_call_ids := h
    rcases ih (applyEvent g e) h' with hmem |
      ⟨es₁, u, resp, es₂, heq, hsucc, hst, hd⟩
    · rcases applyEvent_ids g e with hsame |
        ⟨u, resp, cid', d, he, hst, hb, hl, ht, hres, happ⟩
      · left; rw [hsame] at hmem; exact hmem
      · rw [happ] at hmem
        rcases List.mem_append.mp hmem with hmem | hmem
        · left; exact hmem
        · right
          have hc : cid = cid' := List.mem_singleton.mp hmem
          subst hc
          exact ⟨[], u, resp, rest, by rw [he]; rfl, hres, hst, d, hb, hl, ht⟩
    · right
      exact ⟨e :: es₁, u, resp, es₂, by rw [heq]; rfl, hsucc, hst, hd⟩

/-- C7: every identifier present in the shared ID list after an arbitrary
trace from the initial state was obtained from a create response with status
201 or 200 that yielded a (truthy) identifier and was classified a successful
creation; no other operation adds elements to the list. -/
theorem C7_ids_provenance (es : List Event) (cid : Json)
    (h : cid ∈ (runEvents initialState es).created_call_ids) :
    ∃ es₁ u resp es₂, es = es₁ ++ Event.create u resp :: es₂ ∧
      (create_call (runEvents initialState es₁) u resp).result = .issued .success ∧
      (resp.status = 201 ∨ resp.status = 200) ∧
      ∃ d, resp.body = some d ∧ lookupCallId d = .ok cid ∧ cid.truthy = true := by
  rcases runEvents_ids_origin es initialState cid h with hmem | hres
  · exact absurd hmem (List.not_mem_nil cid)
  · exact hres

/-- Witness for C7: in the one-event trace whose create received
`{"id": "abc"}` with status 201, the identifier `"abc"` in the final list is
traced back to that event. -/
theorem C7_ids_provenance_witness :
    ∃ es₁ u resp es₂,
      [Event.create ⟨"LoadTest1", []⟩ ⟨201, some (.obj [("id", .str "abc")])⟩] =
        es₁ ++ Event.create u resp :: es₂ ∧
      (create_call (runEvents initialState es₁) u resp).result = .issued .success ∧
      (resp.status = 201 ∨ resp.status = 200) ∧
      ∃ d, resp.body = some d ∧ lookupCallId d = .ok (.str "abc") ∧
        Json.truthy (.str "abc") = true :=
  C7_ids_provenance
    [Event.create ⟨"LoadTest1", []⟩ ⟨201, some (.obj [("id", .str "abc")])⟩]
    (.str "abc") (List.mem_singleton.mpr rfl)

/-- C10: the shared ID list is strictly append-only under every operation of
every user class (each step's list is the previous list plus an appended
tail, over single events and over whole traces); in particular the update
task — its 404 branch included — returns the whole shared state unchanged. -/
theorem C10_append_only :
    (∀ g e, ∃ tail, (applyEvent g e).created_call_ids =
      g.created_call_ids ++ tail) ∧
    (∀ g es, ∃ tail, (runEvents g es).created_call_ids =
      g.created_call_ids ++ tail) ∧
    (∀ g u pick sp resp, (update_call_status g u pick sp resp).1 = g) := by
  have hstep : ∀ g e, ∃ tail, (applyEvent g e).created_call_ids =
      g.created_call_ids ++ tail := by
    intro g e
    rcases applyEvent_ids g e with h | ⟨_, _, cid, _, _, _, _, _, _, _, h⟩
    · exact ⟨[], by rw [h, List.append_nil]⟩
    · exact ⟨[cid], h⟩
  refine ⟨hstep, ?_, update_call_status_state⟩
  intro g es
  induction es generalizing g with
  | nil => exact ⟨[], by rw [List.append_nil]; rfl⟩
  | cons e rest ih =>
    obtain ⟨t1, h1⟩ := hstep g e
    obtain ⟨t2, h2⟩ := ih (applyEvent g e)
    exact ⟨t1 ++ t2, by
      show (runEvents (applyEvent g e) rest).created_call_ids = _
      rw [h2, h1, List.append_assoc]⟩

/-- When the gate is open and the 201/200 response yields a truthy
identifier, `create_call` bumps the counter, appends the identifier to both
lists, and reports success. -/
lemma create_call_success (g : GlobalState) (u : CreateUser)
    (resp : HttpResponse) (d cid : Json)
    (hg : g.calls_created_per_org (CreateUser.org_name u) < MAX_CALLS_PER_ORG)
    (hst : resp.status = 201 ∨ resp.status = 200)
    (hb : resp.body = some d) (hl : lookupCallId d = .ok cid)
    (ht : cid.truthy = true) :
    create_call g u resp =
      ⟨{ created_call_ids := g.created_call_ids ++ [cid]
         calls_created_per_org := fun o =>
           if o = u.org_name then g.calls_created_per_org o + 1
           else g.calls_created_per_org o },
       { u with my_call_ids := u.my_call_ids ++ [cid] },
       .issued .success⟩ := by
  have h2 : (resp.status == 201 || resp.status == 200) = true := by
    rcases hst with h | h <;> simp [h]
  simp [create_call, h2, hb, hl, ht]
  omega

/-- The C6 scenario driver: a successful create response, iterated from the
initial state by a single `LoadTest1` create user. -/
def create_ok_resp : HttpResponse := ⟨201, some (.obj [("id", .num 1)])⟩

/-- `n` consecutive `create_call` invocations, all answered by
`create_ok_resp`, by create users of the single tenant `LoadTest1`. -/
def runCreates : Nat → GlobalState
  | 0 => initialState
  | n + 1 => (create_call (runCreates n) ⟨"LoadTest1", []⟩ create_ok_resp).state

lemma runCreates_counter (n : Nat) (h : n ≤ MAX_CALLS_PER_ORG) :
    (runCreates n).calls_created_per_org "LoadTest1" = n := by
  induction n with
  | zero => rfl
  | succ n ih =>
    have ihn := ih (by omega)
    show (create_call (runCreates n) ⟨"LoadTest1", []⟩
      create_ok_resp).state.calls_created_per_org "LoadTest1" = n + 1
    rw [create_call_success (runCreates n) ⟨"LoadTest1", []⟩ create_ok_resp
      (.obj [("id", .num 1)]) (.num 1) (by rw [ihn]; omega) (Or.inl rfl) rfl rfl rfl]
    simp [ihn]

/-- C6: with quota 350, a single tenant (`LoadTest1`) and only create users
active, sequentially (no races): the tenant's counter reaches exactly
`MAX_CALLS_PER_ORG` after 350 successful creations, the state then never
changes again, and every subsequent create-task invocation — whatever its
response would have been — is a no-op: the gate observes the quota reached
and the task returns `skipped` without mutating any state. -/
theorem C6_scenario :
    (runCreates MAX_CALLS_PER_ORG).calls_created_per_org "LoadTest1" =
      MAX_CALLS_PER_ORG ∧
    (∀ n, runCreates (MAX_CALLS_PER_ORG + n) = runCreates MAX_CALLS_PER_ORG) ∧
    (∀ n ids resp,
      create_call (runCreates (MAX_CALLS_PER_ORG + n)) ⟨"LoadTest1", ids⟩ resp =
        ⟨runCreates (MAX_CALLS_PER_ORG + n), ⟨"LoadTest1", ids⟩, .skipped⟩) := by
  have h350 : (runCreates MAX_CALLS_PER_ORG).calls_created_per_org "LoadTest1" =
      MAX_CALLS_PER_ORG := runCreates_counter _ (le_refl _)
  have hq : ∀ ids, MAX_CALLS_PER_ORG ≤
      (runCreates MAX_CALLS_PER_ORG).calls_created_per_org
        (CreateUser.org_name ⟨"LoadTest1", ids⟩) := by
    intro ids
    have horg : CreateUser.org_name ⟨"LoadTest1", ids⟩ = "LoadTest1" := rfl
    rw [horg]
    exact le_of_eq h350.symm
  have hstab : ∀ n, runCreates (MAX_CALLS_PER_ORG + n) =
      runCreates MAX_CALLS_PER_ORG := by
    intro n
    induction n with
    | zero => rfl
    | succ n ih =>
      show (create_call (runCreates (MAX_CALLS_PER_ORG + n)) ⟨"LoadTest1", []⟩
        create_ok_resp).state = _
      rw [ih, create_call_at_quota (runCreates MAX_CALLS_PER_ORG)
        ⟨"LoadTest1", []⟩ create_ok_resp (hq [])]
  refine ⟨h350, hstab, ?_⟩
  intro n ids resp
  rw [hstab n]
  exact create_call_at_quota (runCreates MAX_CALLS_PER_ORG) ⟨"LoadTest1", ids⟩
    resp (hq ids)

end Callva
